import Mathlib

/-!
Verification of the ECR cross-account image sync handler.

Shallow embedding of `src/lambda.py` (`lambda_handler`).  The handler is a
pure function of:

* the process environment (the five variables the code reads),
* the trigger event (`detail.image-tag`, `detail.image-digest`),
* the source registry client (`batch_get_image`), modelled as a function
  from the request the code builds to a response or a raised exception,
* the destination registry client (`put_image`), modelled likewise.

It returns the Python-level outcome (a returned dict or an uncaught
exception) together with a trace of the registry requests issued, so that
claims about which client was invoked and with which arguments are statable.
Python truthiness (`if not image_tag`) and f-string rendering of `None` are
modelled explicitly.
-/

namespace EcrSync

/-- Python truthiness of an optional string value: `None` and `""` are falsy. -/
def truthy : Option String → Bool
  | none => false
  | some s => !s.isEmpty

/-- Rendering of an optional string inside a Python f-string: `None` prints as
the text "None". -/
def fstrOpt : Option String → String
  | none => "None"
  | some s => s

/-- Python `a or b` on two optional strings: `a` when truthy, else `b`. -/
def pyOr (a b : Option String) : Option String :=
  if truthy a then a else b

/-- The image reference dict built at line 68:
`{"imageTag": image_tag} if image_tag else {"imageDigest": image_digest}`. -/
inductive ImageId where
  | byTag (t : String)
  | byDigest (d : String)
deriving DecidableEq

/-- The request the code passes to `ecr_source.batch_get_image` (lines 70-79). -/
structure FetchRequest where
  registryId : String
  repositoryName : String
  imageId : ImageId
  acceptedMediaTypes : List String
deriving DecidableEq

/-- One entry of the `images` list in a `batch_get_image` response:
`imageManifest` is accessed with `[...]`, `imageManifestMediaType` with
`.get` (lines 84-85), so the latter is optional. -/
structure ImageRec where
  imageManifest : String
  imageManifestMediaType : Option String
deriving DecidableEq

/-- The keyword arguments the code passes to `ecr_dest.put_image`
(lines 94-105): `imageTag` and `imageManifestMediaType` are added only when
truthy. -/
structure PutRequest where
  registryId : String
  repositoryName : String
  imageManifest : String
  imageTag : Option String
  imageManifestMediaType : Option String
deriving DecidableEq

/-- Python exceptions relevant to the handler: `KeyError` from `os.environ`,
the two recognised ECR client exceptions, and any other exception
(identified by an opaque code so that re-raising "the same exception" is
statable). -/
inductive Exc where
  | keyError (key : String)
  | imageNotFound
  | imageAlreadyExists
  | other (code : Nat)
deriving DecidableEq

/-- Behaviour of `batch_get_image` on the request the handler issues: either
a response whose `images` list is as given (a missing `images` key behaves as
the empty list, since the code only tests `source_image.get("images")` for
truthiness), or a raised exception. -/
inductive FetchResult where
  | ok (images : List ImageRec)
  | exc (e : Exc)

/-- Behaviour of `put_image` on the request the handler issues: either a
response carrying `result["image"]["imageId"]["imageDigest"]`, or a raised
exception. -/
inductive PushResult where
  | ok (digest : String)
  | exc (e : Exc)

/-- The dicts `lambda_handler` can return.  Each Python key is a field;
`none` means the key is absent from the dict.  The `tag` key, when present,
holds `image_tag`, which may itself be Python `None`, hence the nested
option. -/
structure RetDict where
  status : String
  message : Option String := none
  source_account : Option String := none
  destination_account : Option String := none
  repository : Option String := none
  tag : Option (Option String) := none
  digest : Option String := none
deriving DecidableEq

/-- Outcome of one invocation: a returned dict or an uncaught exception. -/
inductive Outcome where
  | returns (r : RetDict)
  | raises (e : Exc)
deriving DecidableEq

/-- The registry requests issued during one invocation, in order. -/
structure Trace where
  fetchCalls : List FetchRequest
  putCalls : List PutRequest
deriving DecidableEq

/-- The five environment variables the code reads; `none` means the variable
is absent (so `os.environ[...]` raises `KeyError`). -/
structure Env where
  REPO_NAME : Option String
  SOURCE_ACCOUNT_ID : Option String
  SOURCE_REGION : Option String
  DESTINATION_ACCOUNT_ID : Option String
  DESTINATION_REGION : Option String

/-- The trigger event: `event.get("detail", {}).get("image-tag")` and
`...get("image-digest")` (lines 43-45). -/
structure Event where
  imageTag : Option String
  imageDigest : Option String

/-- The `acceptedMediaTypes` list at lines 74-78. -/
def acceptedMediaTypesList : List String :=
  ["application/vnd.docker.distribution.manifest.v2+json",
   "application/vnd.oci.image.manifest.v1+json",
   "application/vnd.docker.distribution.manifest.list.v2+json"]

/-- The dict returned at line 49 when neither tag nor digest is truthy. -/
def noRefDict : RetDict :=
  { status := "error", message := some "No image tag or digest in event" }

/-- The dict returned at line 82 when the `images` list is empty. -/
def notFoundDict (image_tag image_digest : Option String) : RetDict :=
  { status := "error",
    message := some ("Image not found: " ++ fstrOpt (pyOr image_tag image_digest)) }

/-- The dict returned at line 121 when `ImageNotFoundException` is caught. -/
def notFoundInSourceDict (image_tag : Option String) : RetDict :=
  { status := "error",
    message := some ("Image not found in source: " ++ fstrOpt image_tag) }

/-- The dict returned at line 124 when `ImageAlreadyExistsException` is caught. -/
def skippedDict (image_tag : Option String) : RetDict :=
  { status := "skipped",
    message := some "Image already exists",
    tag := some image_tag }

/-- The dict returned at lines 111-118 on a successful push. -/
def successDict (source_account dest_account repo_name : String)
    (image_tag : Option String) (dest_digest : String) : RetDict :=
  { status := "success",
    source_account := some source_account,
    destination_account := some dest_account,
    repository := some repo_name,
    tag := some image_tag,
    digest := some dest_digest }

/-- The `except` clauses at lines 120-127, applied to an exception raised
inside the `try` block: `ImageNotFoundException` and
`ImageAlreadyExistsException` become soft results (both message strings
interpolate `image_tag`), everything else is re-raised unchanged. -/
def handle_exc (e : Exc) (image_tag : Option String) : Outcome :=
  match e with
  | Exc.imageNotFound => Outcome.returns (notFoundInSourceDict image_tag)
  | Exc.imageAlreadyExists => Outcome.returns (skippedDict image_tag)
  | e => Outcome.raises e

/-- Shallow embedding of `lambda_handler` (src/lambda.py lines 29-127).
Control flow, in source order: read `REPO_NAME` (line 46, raises `KeyError`
if absent), validate that a truthy tag or digest is present (line 48), read
the remaining four variables (lines 52-55), build the image reference and
call `batch_get_image` (lines 68-79), handle an empty `images` list
(lines 81-82), build the `put_image` arguments (lines 94-103), call
`put_image` (line 105) and return the success dict (lines 111-118); the
`except` clauses wrap the two client calls. -/
def lambda_handler (env : Env) (event : Event)
    (batch_get_image : FetchRequest → FetchResult)
    (put_image : PutRequest → PushResult) : Outcome × Trace :=
  let image_tag := event.imageTag
  let image_digest := event.imageDigest
  match env.REPO_NAME with
  | none => (Outcome.raises (Exc.keyError "REPO_NAME"), ⟨[], []⟩)
  | some repo_name =>
    if !truthy image_tag && !truthy image_digest then
      (Outcome.returns noRefDict, ⟨[], []⟩)
    else
      match env.SOURCE_ACCOUNT_ID with
      | none => (Outcome.raises (Exc.keyError "SOURCE_ACCOUNT_ID"), ⟨[], []⟩)
      | some source_account =>
      match env.SOURCE_REGION with
      | none => (Outcome.raises (Exc.keyError "SOURCE_REGION"), ⟨[], []⟩)
      | some _source_region =>
      match env.DESTINATION_ACCOUNT_ID with
      | none => (Outcome.raises (Exc.keyError "DESTINATION_ACCOUNT_ID"), ⟨[], []⟩)
      | some dest_account =>
      match env.DESTINATION_REGION with
      | none => (Outcome.raises (Exc.keyError "DESTINATION_REGION"), ⟨[], []⟩)
      | some _dest_region =>
      let image_id :=
        if truthy image_tag then ImageId.byTag (image_tag.getD "")
        else ImageId.byDigest (image_digest.getD "")
      let fetch_req : FetchRequest :=
        { registryId := source_account,
          repositoryName := repo_name,
          imageId := image_id,
          acceptedMediaTypes := acceptedMediaTypesList }
      match batch_get_image fetch_req with
      | FetchResult.exc e => (handle_exc e image_tag, ⟨[fetch_req], []⟩)
      | FetchResult.ok images =>
        match images with
        | [] =>
          (Outcome.returns (notFoundDict image_tag image_digest), ⟨[fetch_req], []⟩)
        | img :: _ =>
          let image_manifest := img.imageManifest
          let manifest_media_type := img.imageManifestMediaType
          let put_req : PutRequest :=
            { registryId := dest_account,
              repositoryName := repo_name,
              imageManifest := image_manifest,
              imageTag := if truthy image_tag then image_tag else none,
              imageManifestMediaType :=
                if truthy manifest_media_type then manifest_media_type else none }
          match put_image put_req with
          | PushResult.exc e => (handle_exc e image_tag, ⟨[fetch_req], [put_req]⟩)
          | PushResult.ok dest_digest =>
            (Outcome.returns
              (successDict source_account dest_account repo_name image_tag dest_digest),
             ⟨[fetch_req], [put_req]⟩)

/-- Does `pat` occur at the head of `l`? -/
def leadMatch : List Char → List Char → Bool
  | [], _ => true
  | _ :: _, [] => false
  | p :: ps, c :: cs => p == c && leadMatch ps cs

/-- Does `pat` occur anywhere in `l`? -/
def subMatch (pat : List Char) : List Char → Bool
  | [] => leadMatch pat []
  | c :: cs => leadMatch pat (c :: cs) || subMatch pat cs

/-- Substring test: `strContains s pat` is true iff `pat` occurs in `s`;
used to state "the message contains the requested tag-or-digest". -/
def strContains (s pat : String) : Bool := subMatch pat.data s.data

/-- An environment with all five variables set (witness fixture). -/
def envFull : Env :=
  ⟨some "app", some "111111111111", some "us-east-1",
   some "222222222222", some "us-west-2"⟩

/-- A source client whose response has an empty `images` list (witness
fixture). -/
def fetchEmpty : FetchRequest → FetchResult := fun _ => FetchResult.ok []

/-- A destination client that always succeeds with a fixed digest (witness
fixture). -/
def putZero : PutRequest → PushResult := fun _ => PushResult.ok "sha256:0"

/-! Helper lemmas shared by the claim theorems. -/

/-- An exception that is neither of the two recognised kinds is re-raised by
the `except` clauses. -/
theorem handle_exc_other (e : Exc) (t : Option String)
    (h1 : e ≠ Exc.imageNotFound) (h2 : e ≠ Exc.imageAlreadyExists) :
    handle_exc e t = Outcome.raises e := by
  cases e with
  | imageNotFound => exact absurd rfl h1
  | imageAlreadyExists => exact absurd rfl h2
  | keyError k => rfl
  | other c => rfl

/-- A pattern matches at the head of any list it heads. -/
theorem leadMatch_self_append (p s : List Char) : leadMatch p (p ++ s) = true := by
  induction p with
  | nil => rfl
  | cons c cs ih => simp [leadMatch, ih]

/-- A head match is in particular a sub-match. -/
theorem subMatch_of_leadMatch (p l : List Char) (h : leadMatch p l = true) :
    subMatch p l = true := by
  cases l with
  | nil => simpa [subMatch] using h
  | cons c cs => simp [subMatch, h]

/-- A pattern occurs in any list that embeds it between two others. -/
theorem subMatch_append (pre p s : List Char) :
    subMatch p (pre ++ (p ++ s)) = true := by
  induction pre with
  | nil => exact subMatch_of_leadMatch p (p ++ s) (leadMatch_self_append p s)
  | cons c cs ih => simp [subMatch, ih]

/-- A string contains its own suffix. -/
theorem strContains_append_right (a b : String) :
    strContains (a ++ b) b = true := by
  have h := subMatch_append a.data b.data []
  rw [List.append_nil] at h
  simpa [strContains, String.data_append] using h

/-- A truthy optional string renders in an f-string as its payload. -/
theorem truthy_fstrOpt (o : Option String) (h : truthy o = true) :
    fstrOpt o = o.getD "" := by
  cases o with
  | none => simp [truthy] at h
  | some s => rfl

/-! Claim theorems. -/

/-- Claim C1: for every event whose detail contains neither an image tag nor
an image digest (in the code's sense: neither value truthy), the handler
returns the error dict with message "No image tag or digest in event" and
issues no request to either registry client.  `REPO_NAME`, which the code
reads before this validation, is assumed present; the other four variables
may be absent. -/
theorem C1_missing_ref_soft_error (rn : String) (o1 o2 o3 o4 : Option String)
    (ev : Event) (f : FetchRequest → FetchResult) (p : PutRequest → PushResult)
    (ht : truthy ev.imageTag = false) (hd : truthy ev.imageDigest = false) :
    lambda_handler ⟨some rn, o1, o2, o3, o4⟩ ev f p =
      (Outcome.returns noRefDict, ⟨[], []⟩) := by
  simp [lambda_handler, ht, hd]

/-- Witness for C1 at a concrete input: an event with neither field set. -/
theorem C1_missing_ref_soft_error_witness :
    lambda_handler ⟨some "app", none, none, none, none⟩ ⟨none, none⟩
        fetchEmpty putZero =
      (Outcome.returns noRefDict, ⟨[], []⟩) :=
  C1_missing_ref_soft_error "app" none none none none ⟨none, none⟩
    fetchEmpty putZero rfl rfl

/-- Claim C2 counterexample: for the digest-only event
`{detail: {image-digest: "sha256:abc"}}`, when the source client raises its
image-not-found exception the handler returns an error whose message is
"Image not found in source: None", which does not contain the digest — so the
claim that the error message always contains the requested tag-or-digest
fails on the exception path. -/
theorem C2_counterexample :
    (lambda_handler ⟨some "app", some "111111111111", some "us-east-1",
        some "222222222222", some "us-west-2"⟩ ⟨none, some "sha256:abc"⟩
        (fun _ => FetchResult.exc Exc.imageNotFound) putZero).1 =
      Outcome.returns { status := "error",
                        message := some "Image not found in source: None" } ∧
    strContains "Image not found in source: None" "sha256:abc" = false :=
  ⟨rfl, by decide⟩

/-- Claim C2 as amended: if the source lookup returns an empty image list,
the result is an error whose message "Image not found: ..." contains the
requested tag-or-digest; if instead the source client raises its
image-not-found exception, the result is an error with message
"Image not found in source: " followed by the f-string rendering of the tag,
which contains the tag when the event carried one (digest-only events get
"Image not found in source: None"). -/
theorem C2_amended_not_found_messages (rn sa sr da dr : String) (ev : Event)
    (hval : truthy ev.imageTag = true ∨ truthy ev.imageDigest = true) :
    (∀ p, (lambda_handler ⟨some rn, some sa, some sr, some da, some dr⟩ ev
        (fun _ => FetchResult.ok []) p).1 =
      Outcome.returns (notFoundDict ev.imageTag ev.imageDigest) ∧
      strContains ("Image not found: " ++ fstrOpt (pyOr ev.imageTag ev.imageDigest))
        (fstrOpt (pyOr ev.imageTag ev.imageDigest)) = true) ∧
    (∀ p, (lambda_handler ⟨some rn, some sa, some sr, some da, some dr⟩ ev
        (fun _ => FetchResult.exc Exc.imageNotFound) p).1 =
      Outcome.returns (notFoundInSourceDict ev.imageTag)) ∧
    (truthy ev.imageTag = true →
      strContains ("Image not found in source: " ++ fstrOpt ev.imageTag)
        (ev.imageTag.getD "") = true) := by
  refine ⟨fun p => ⟨?_, strContains_append_right _ _⟩, fun p => ?_, fun h => ?_⟩
  · rcases hval with h | h <;> simp [lambda_handler, h]
  · rcases hval with h | h <;> simp [lambda_handler, h, handle_exc]
  · rw [truthy_fstrOpt ev.imageTag h]
    exact strContains_append_right _ _

/-- Witness for the amended C2: a digest-only event on the empty-list path
(message contains the digest) and a tagged event's exception-path message
(contains the tag). -/
theorem C2_amended_not_found_messages_witness :
    ((lambda_handler ⟨some "app", some "111111111111", some "us-east-1",
        some "222222222222", some "us-west-2"⟩ ⟨none, some "sha256:abc"⟩
        fetchEmpty putZero).1 =
      Outcome.returns (notFoundDict none (some "sha256:abc")) ∧
      strContains ("Image not found: " ++ fstrOpt (pyOr none (some "sha256:abc")))
        (fstrOpt (pyOr none (some "sha256:abc"))) = true) ∧
    strContains ("Image not found in source: " ++ fstrOpt (some "v1.2.0"))
      ((some "v1.2.0").getD "") = true :=
  ⟨(C2_amended_not_found_messages "app" "111111111111" "us-east-1"
      "222222222222" "us-west-2" ⟨none, some "sha256:abc"⟩
      (Or.inr (by decide))).1 putZero,
   (C2_amended_not_found_messages "app" "111111111111" "us-east-1"
      "222222222222" "us-west-2" ⟨some "v1.2.0", none⟩
      (Or.inl (by decide))).2.2 (by decide)⟩

/-- Claim C3: for every event with a truthy tag or digest, if the destination
push raises the registry's image-already-exists exception, the handler
returns the dict with status "skipped" and message "Image already exists"
(so neither an error-status result nor a re-raise). -/
theorem C3_already_exists_skipped (rn sa sr da dr : String) (ev : Event)
    (img : ImageRec) (rest : List ImageRec)
    (hval : truthy ev.imageTag = true ∨ truthy ev.imageDigest = true) :
    (lambda_handler ⟨some rn, some sa, some sr, some da, some dr⟩ ev
        (fun _ => FetchResult.ok (img :: rest))
        (fun _ => PushResult.exc Exc.imageAlreadyExists)).1 =
      Outcome.returns (skippedDict ev.imageTag) := by
  rcases hval with h | h <;> simp [lambda_handler, h, handle_exc]

/-- Witness for C3 at a concrete tagged event. -/
theorem C3_already_exists_skipped_witness :
    (lambda_handler ⟨some "app", some "111111111111", some "us-east-1",
        some "222222222222", some "us-west-2"⟩ ⟨some "v1.2.0", none⟩
        (fun _ => FetchResult.ok [⟨"manifest-bytes", some "mt"⟩])
        (fun _ => PushResult.exc Exc.imageAlreadyExists)).1 =
      Outcome.returns (skippedDict (some "v1.2.0")) :=
  C3_already_exists_skipped "app" "111111111111" "us-east-1" "222222222222"
    "us-west-2" ⟨some "v1.2.0", none⟩ ⟨"manifest-bytes", some "mt"⟩ []
    (Or.inl (by decide))

/-- Claim C4: any exception other than the image-not-found and
image-already-exists kinds, raised by the fetch or by the push, propagates
out of the handler unmodified (the raised exception is the very same value,
never a soft result dict). -/
theorem C4_other_exc_propagates (rn sa sr da dr : String) (ev : Event)
    (img : ImageRec) (rest : List ImageRec) (e : Exc) (p : PutRequest → PushResult)
    (hval : truthy ev.imageTag = true ∨ truthy ev.imageDigest = true)
    (h1 : e ≠ Exc.imageNotFound) (h2 : e ≠ Exc.imageAlreadyExists) :
    (lambda_handler ⟨some rn, some sa, some sr, some da, some dr⟩ ev
        (fun _ => FetchResult.exc e) p).1 = Outcome.raises e ∧
    (lambda_handler ⟨some rn, some sa, some sr, some da, some dr⟩ ev
        (fun _ => FetchResult.ok (img :: rest))
        (fun _ => PushResult.exc e)).1 = Outcome.raises e := by
  have he := handle_exc_other e ev.imageTag h1 h2
  rcases hval with h | h <;>
    exact ⟨by simp [lambda_handler, h, he], by simp [lambda_handler, h, he]⟩

/-- Witness for C4 with a concrete unrecognised exception on both paths. -/
theorem C4_other_exc_propagates_witness :
    (lambda_handler ⟨some "app", some "111111111111", some "us-east-1",
        some "222222222222", some "us-west-2"⟩ ⟨some "v1.2.0", none⟩
        (fun _ => FetchResult.exc (Exc.other 7)) putZero).1 =
      Outcome.raises (Exc.other 7) ∧
    (lambda_handler ⟨some "app", some "111111111111", some "us-east-1",
        some "222222222222", some "us-west-2"⟩ ⟨some "v1.2.0", none⟩
        (fun _ => FetchResult.ok [⟨"manifest-bytes", some "mt"⟩])
        (fun _ => PushResult.exc (Exc.other 7))).1 =
      Outcome.raises (Exc.other 7) :=
  C4_other_exc_propagates "app" "111111111111" "us-east-1" "222222222222"
    "us-west-2" ⟨some "v1.2.0", none⟩ ⟨"manifest-bytes", some "mt"⟩ []
    (Exc.other 7) putZero (Or.inl (by decide)) (by decide) (by decide)

/-- Claim C5: when the source lookup returns a manifest and the destination
push succeeds, the handler returns the success dict carrying the source
account, destination account, repository name, the original tag (Python
`None` when only a digest was given) and the digest from the push
response. -/
theorem C5_success_result (rn sa sr da dr : String) (ev : Event)
    (img : ImageRec) (rest : List ImageRec) (d : String)
    (hval : truthy ev.imageTag = true ∨ truthy ev.imageDigest = true) :
    (lambda_handler ⟨some rn, some sa, some sr, some da, some dr⟩ ev
        (fun _ => FetchResult.ok (img :: rest)) (fun _ => PushResult.ok d)).1 =
      Outcome.returns (successDict sa da rn ev.imageTag d) := by
  rcases hval with h | h <;> simp [lambda_handler, h]

/-- Witness for C5 at a digest-only event: the success dict's `tag` key holds
Python `None` and `digest` holds the destination-assigned digest. -/
theorem C5_success_result_witness :
    (lambda_handler ⟨some "app", some "111111111111", some "us-east-1",
        some "222222222222", some "us-west-2"⟩ ⟨none, some "sha256:abc"⟩
        (fun _ => FetchResult.ok [⟨"manifest-bytes", some "mt"⟩])
        (fun _ => PushResult.ok "sha256:destdigest")).1 =
      Outcome.returns (successDict "111111111111" "222222222222" "app" none
        "sha256:destdigest") :=
  C5_success_result "app" "111111111111" "us-east-1" "222222222222"
    "us-west-2" ⟨none, some "sha256:abc"⟩ ⟨"manifest-bytes", some "mt"⟩ []
    "sha256:destdigest" (Or.inr (by decide))

/-- Claim C6: for an event with a truthy tag and no truthy digest, the single
source lookup request carries a tag-qualified image reference; for a
digest-only event it carries a digest-qualified reference. -/
theorem C6_lookup_reference (rn sa sr da dr : String) (ev : Event)
    (f : FetchRequest → FetchResult) (p : PutRequest → PushResult) :
    (truthy ev.imageTag = true → truthy ev.imageDigest = false →
      (lambda_handler ⟨some rn, some sa, some sr, some da, some dr⟩ ev f p).2.fetchCalls =
        [{ registryId := sa,
           repositoryName := rn,
           imageId := ImageId.byTag (ev.imageTag.getD ""),
           acceptedMediaTypes := acceptedMediaTypesList }]) ∧
    (truthy ev.imageTag = false → truthy ev.imageDigest = true →
      (lambda_handler ⟨some rn, some sa, some sr, some da, some dr⟩ ev f p).2.fetchCalls =
        [{ registryId := sa,
           repositoryName := rn,
           imageId := ImageId.byDigest (ev.imageDigest.getD ""),
           acceptedMediaTypes := acceptedMediaTypesList }]) := by
  constructor <;> intro h1 h2 <;>
    (simp [lambda_handler, h1, h2]
     split
     · rfl
     · split
       · rfl
       · split <;> rfl)

/-- Witness for C6: a tag-only event yields a tag-qualified request and a
digest-only event a digest-qualified one. -/
theorem C6_lookup_reference_witness :
    (truthy (some "v1.2.0") = true ∧
      (lambda_handler ⟨some "app", some "111111111111", some "us-east-1",
          some "222222222222", some "us-west-2"⟩ ⟨some "v1.2.0", none⟩
          fetchEmpty putZero).2.fetchCalls =
        [{ registryId := "111111111111",
           repositoryName := "app",
           imageId := ImageId.byTag "v1.2.0",
           acceptedMediaTypes := acceptedMediaTypesList }]) ∧
    (truthy (some "sha256:abc") = true ∧
      (lambda_handler ⟨some "app", some "111111111111", some "us-east-1",
          some "222222222222", some "us-west-2"⟩ ⟨none, some "sha256:abc"⟩
          fetchEmpty putZero).2.fetchCalls =
        [{ registryId := "111111111111",
           repositoryName := "app",
           imageId := ImageId.byDigest "sha256:abc",
           acceptedMediaTypes := acceptedMediaTypesList }]) :=
  ⟨⟨by decide,
    (C6_lookup_reference "app" "111111111111" "us-east-1" "222222222222"
      "us-west-2" ⟨some "v1.2.0", none⟩ fetchEmpty putZero).1 (by decide) rfl⟩,
   ⟨by decide,
    (C6_lookup_reference "app" "111111111111" "us-east-1" "222222222222"
      "us-west-2" ⟨none, some "sha256:abc"⟩ fetchEmpty putZero).2 rfl (by decide)⟩⟩

/-- Claim C7 counterexample: with `REPO_NAME` set but `SOURCE_ACCOUNT_ID`
(and the other three) absent, an event carrying neither tag nor digest makes
the handler return the soft validation result instead of raising any fatal
error — so "any missing configuration value makes the handler raise" fails. -/
theorem C7_counterexample :
    (Env.mk (some "app") none none none none).SOURCE_ACCOUNT_ID = none ∧
    lambda_handler ⟨some "app", none, none, none, none⟩ ⟨none, none⟩
        fetchEmpty putZero =
      (Outcome.returns noRefDict, ⟨[], []⟩) :=
  ⟨rfl, rfl⟩

/-- Claim C7 as amended: a missing `REPO_NAME` raises a fatal `KeyError` on
every invocation; a missing value among the other four raises a fatal
`KeyError` (naming the first missing variable in the code's read order) on
every invocation whose event carries a truthy tag or digest — those four are
read only after the validation, so an invalid event returns the soft
validation result instead.  No soft result for missing configuration is ever
produced. -/
theorem C7_amended_fatal_config :
    (∀ (ev : Event) (f : FetchRequest → FetchResult) (p : PutRequest → PushResult)
        (o1 o2 o3 o4 : Option String),
      lambda_handler ⟨none, o1, o2, o3, o4⟩ ev f p =
        (Outcome.raises (Exc.keyError "REPO_NAME"), ⟨[], []⟩)) ∧
    (∀ (rn : String) (ev : Event) f p (o2 o3 o4 : Option String),
      truthy ev.imageTag = true ∨ truthy ev.imageDigest = true →
      lambda_handler ⟨some rn, none, o2, o3, o4⟩ ev f p =
        (Outcome.raises (Exc.keyError "SOURCE_ACCOUNT_ID"), ⟨[], []⟩)) ∧
    (∀ (rn sa : String) (ev : Event) f p (o3 o4 : Option String),
      truthy ev.imageTag = true ∨ truthy ev.imageDigest = true →
      lambda_handler ⟨some rn, some sa, none, o3, o4⟩ ev f p =
        (Outcome.raises (Exc.keyError "SOURCE_REGION"), ⟨[], []⟩)) ∧
    (∀ (rn sa sr : String) (ev : Event) f p (o4 : Option String),
      truthy ev.imageTag = true ∨ truthy ev.imageDigest = true →
      lambda_handler ⟨some rn, some sa, some sr, none, o4⟩ ev f p =
        (Outcome.raises (Exc.keyError "DESTINATION_ACCOUNT_ID"), ⟨[], []⟩)) ∧
    (∀ (rn sa sr da : String) (ev : Event) f p,
      truthy ev.imageTag = true ∨ truthy ev.imageDigest = true →
      lambda_handler ⟨some rn, some sa, some sr, some da, none⟩ ev f p =
        (Outcome.raises (Exc.keyError "DESTINATION_REGION"), ⟨[], []⟩)) := by
  refine ⟨fun ev f p o1 o2 o3 o4 => rfl, ?_, ?_, ?_, ?_⟩ <;>
    (intros
     rename_i hval
     rcases hval with h | h <;> simp [lambda_handler, h])

/-- Witness for the amended C7: a tagged event with `SOURCE_ACCOUNT_ID`
absent raises the corresponding `KeyError`. -/
theorem C7_amended_fatal_config_witness :
    lambda_handler ⟨some "app", none, none, none, none⟩ ⟨some "v1.2.0", none⟩
        fetchEmpty putZero =
      (Outcome.raises (Exc.keyError "SOURCE_ACCOUNT_ID"), ⟨[], []⟩) :=
  C7_amended_fatal_config.2.1 "app" ⟨some "v1.2.0", none⟩ fetchEmpty putZero
    none none none (Or.inl (by decide))

/-- Claim C8: the single push request submits the manifest string retrieved
from the source verbatim, under the same repository name and the destination
account, includes the original tag exactly when the event's tag is truthy,
and includes the retrieved media type exactly when that is truthy. -/
theorem C8_put_request (rn sa sr da dr : String) (ev : Event)
    (img : ImageRec) (rest : List ImageRec) (p : PutRequest → PushResult)
    (hval : truthy ev.imageTag = true ∨ truthy ev.imageDigest = true) :
    (lambda_handler ⟨some rn, some sa, some sr, some da, some dr⟩ ev
        (fun _ => FetchResult.ok (img :: rest)) p).2.putCalls =
      [{ registryId := da,
         repositoryName := rn,
         imageManifest := img.imageManifest,
         imageTag := if truthy ev.imageTag then ev.imageTag else none,
         imageManifestMediaType :=
           if truthy img.imageManifestMediaType then img.imageManifestMediaType
           else none }] := by
  rcases hval with h | h <;>
    (simp [lambda_handler, h]
     split <;> rfl)

/-- Witness for C8 at a digest-only event: the push request carries the
retrieved manifest and media type and omits the tag. -/
theorem C8_put_request_witness :
    (lambda_handler ⟨some "app", some "111111111111", some "us-east-1",
        some "222222222222", some "us-west-2"⟩ ⟨none, some "sha256:abc"⟩
        (fun _ => FetchResult.ok [⟨"manifest-bytes", some "mt"⟩]) putZero).2.putCalls =
      [{ registryId := "222222222222",
         repositoryName := "app",
         imageManifest := "manifest-bytes",
         imageTag := if truthy (none : Option String) then none else none,
         imageManifestMediaType :=
           if truthy (some "mt") then some "mt" else none }] :=
  C8_put_request "app" "111111111111" "us-east-1" "222222222222" "us-west-2"
    ⟨none, some "sha256:abc"⟩ ⟨"manifest-bytes", some "mt"⟩ [] putZero
    (Or.inr (by decide))

/-- Claim C9: for an event carrying both a (truthy) tag and a digest, the
handler behaves identically to the same event without the digest (the event
digest is ignored entirely); moreover the lookup request is tag-qualified,
the push request carries the tag, and the success dict's `tag` key holds the
tag. -/
theorem C9_tag_wins (rn sa sr da dr t d : String)
    (ht : truthy (some t) = true) :
    (∀ f p, lambda_handler ⟨some rn, some sa, some sr, some da, some dr⟩
        ⟨some t, some d⟩ f p =
      lambda_handler ⟨some rn, some sa, some sr, some da, some dr⟩
        ⟨some t, none⟩ f p) ∧
    (∀ f p, (lambda_handler ⟨some rn, some sa, some sr, some da, some dr⟩
        ⟨some t, some d⟩ f p).2.fetchCalls =
      [{ registryId := sa,
         repositoryName := rn,
         imageId := ImageId.byTag t,
         acceptedMediaTypes := acceptedMediaTypesList }]) ∧
    (∀ img rest p, (lambda_handler ⟨some rn, some sa, some sr, some da, some dr⟩
        ⟨some t, some d⟩ (fun _ => FetchResult.ok (img :: rest)) p).2.putCalls =
      [{ registryId := da,
         repositoryName := rn,
         imageManifest := img.imageManifest,
         imageTag := some t,
         imageManifestMediaType :=
           if truthy img.imageManifestMediaType then img.imageManifestMediaType
           else none }]) ∧
    (∀ img rest dg, (lambda_handler ⟨some rn, some sa, some sr, some da, some dr⟩
        ⟨some t, some d⟩ (fun _ => FetchResult.ok (img :: rest))
        (fun _ => PushResult.ok dg)).1 =
      Outcome.returns (successDict sa da rn (some t) dg)) := by
  refine ⟨fun f p => ?_, fun f p => ?_, fun img rest p => ?_, fun img rest dg => ?_⟩
  · simp [lambda_handler, ht, notFoundDict, pyOr]
  · simp [lambda_handler, ht]
    split
    · rfl
    · split
      · rfl
      · split <;> rfl
  · simp [lambda_handler, ht]
    split <;> rfl
  · simp [lambda_handler, ht]

/-- Witness for C9: with both `v1.2.0` and `sha256:abc` in the event, the
invocation equals the digest-free one and the lookup is tag-qualified. -/
theorem C9_tag_wins_witness :
    (lambda_handler ⟨some "app", some "111111111111", some "us-east-1",
        some "222222222222", some "us-west-2"⟩ ⟨some "v1.2.0", some "sha256:abc"⟩
        fetchEmpty putZero =
      lambda_handler ⟨some "app", some "111111111111", some "us-east-1",
        some "222222222222", some "us-west-2"⟩ ⟨some "v1.2.0", none⟩
        fetchEmpty putZero) ∧
    (lambda_handler ⟨some "app", some "111111111111", some "us-east-1",
        some "222222222222", some "us-west-2"⟩ ⟨some "v1.2.0", some "sha256:abc"⟩
        fetchEmpty putZero).2.fetchCalls =
      [{ registryId := "111111111111",
         repositoryName := "app",
         imageId := ImageId.byTag "v1.2.0",
         acceptedMediaTypes := acceptedMediaTypesList }] :=
  ⟨(C9_tag_wins "app" "111111111111" "us-east-1" "222222222222" "us-west-2"
      "v1.2.0" "sha256:abc" (by decide)).1 fetchEmpty putZero,
   (C9_tag_wins "app" "111111111111" "us-east-1" "222222222222" "us-west-2"
      "v1.2.0" "sha256:abc" (by decide)).2.1 fetchEmpty putZero⟩

/-- Claim C10: `REPO_NAME` is read before the tag/digest validation — with it
absent the handler raises `KeyError "REPO_NAME"` even for an event missing
both tag and digest — while the other four variables are read only after the
validation: with `REPO_NAME` present, such an event yields the soft
validation result whatever the other four are (present or absent). -/
theorem C10_repo_name_read_first (ev : Event) (f : FetchRequest → FetchResult)
    (p : PutRequest → PushResult)
    (ht : truthy ev.imageTag = false) (hd : truthy ev.imageDigest = false) :
    (∀ o1 o2 o3 o4, lambda_handler ⟨none, o1, o2, o3, o4⟩ ev f p =
        (Outcome.raises (Exc.keyError "REPO_NAME"), ⟨[], []⟩)) ∧
    (∀ rn o1 o2 o3 o4, lambda_handler ⟨some rn, o1, o2, o3, o4⟩ ev f p =
        (Outcome.returns noRefDict, ⟨[], []⟩)) := by
  refine ⟨fun o1 o2 o3 o4 => rfl, fun rn o1 o2 o3 o4 => ?_⟩
  simp [lambda_handler, ht, hd]

/-- Witness for C10: an empty event raises with `REPO_NAME` unset and returns
the soft result with it set, the remaining variables absent either way. -/
theorem C10_repo_name_read_first_witness :
    (lambda_handler ⟨none, some "111111111111", some "us-east-1",
        some "222222222222", some "us-west-2"⟩ ⟨none, none⟩ fetchEmpty putZero =
      (Outcome.raises (Exc.keyError "REPO_NAME"), ⟨[], []⟩)) ∧
    (lambda_handler ⟨some "app", none, none, none, none⟩ ⟨none, none⟩
        fetchEmpty putZero =
      (Outcome.returns noRefDict, ⟨[], []⟩)) :=
  ⟨(C10_repo_name_read_first ⟨none, none⟩ fetchEmpty putZero rfl rfl).1
      (some "111111111111") (some "us-east-1") (some "222222222222")
      (some "us-west-2"),
   (C10_repo_name_read_first ⟨none, none⟩ fetchEmpty putZero rfl rfl).2
      "app" none none none none⟩

end EcrSync
